import Mathlib

/-!
Shallow embedding of the remote-control session subsystem of the
school-it-ticketing repository: the session registry
(`src/remote_desktop/session_manager.py`), the input authorizer
(`src/remote_desktop/input_handler.py`) and the frame producer
(`src/remote_desktop/screen_capture.py`).

Time is a natural number (seconds); each registry operation receives the
current time `now` explicitly, standing for `datetime.utcnow()`.  Python
dictionaries become association lists with dict semantics (assignment
replaces in place or appends, `del` removes the key); session ids, which
the source draws from `uuid.uuid4()`, become the values of a fresh-id
counter, and the two random tokens of a session are drawn injectively
from the same counter.
-/

namespace SchoolIT

/-- Association-list lookup, mirroring `dict.get`. -/
def alookup {α : Type} (k : Nat) : List (Nat × α) → Option α
  | [] => none
  | (k₂, v) :: t => if k₂ = k then some v else alookup k t

/-- Association-list assignment, mirroring `d[k] = v`: replaces in place
if the key is present, otherwise appends at the end. -/
def ainsert {α : Type} (k : Nat) (v : α) : List (Nat × α) → List (Nat × α)
  | [] => [(k, v)]
  | (k₂, v₂) :: t => if k₂ = k then (k, v) :: t else (k₂, v₂) :: ainsert k v t

/-- Association-list removal, mirroring `del d[k]` (guarded by `k in d`
in the source, so removing an absent key is a no-op). -/
def aerase {α : Type} (k : Nat) : List (Nat × α) → List (Nat × α)
  | [] => []
  | (k₂, v) :: t => if k₂ = k then aerase k t else (k₂, v) :: aerase k t

/-- Session status: `'pending' | 'active' | 'closed'` in the source. -/
inductive Status
  | pending
  | active
  | closed
deriving DecidableEq, Repr

/-- The 2-hour session limit (`timedelta(hours=2)`), in seconds. -/
def sessionTTL : Nat := 7200

/-- The `RemoteSession` record of `session_manager.py`. -/
structure RemoteSession where
  sessionId : Nat
  ticketId : Nat
  userName : String
  itStaffName : String
  createdAt : Nat
  expiresAt : Nat
  status : Status
  userToken : Nat
  itToken : Nat
  userConnected : Bool
  itConnected : Bool
  lastActivity : Nat
deriving DecidableEq, Repr

namespace RemoteSession

/-- Embeds `RemoteSession.is_expired`: `datetime.utcnow() > self.expires_at`. -/
def is_expired (s : RemoteSession) (now : Nat) : Bool :=
  decide (s.expiresAt < now)

/-- Embeds `RemoteSession.is_valid`: not expired and status is not `'closed'`. -/
def is_valid (s : RemoteSession) (now : Nat) : Bool :=
  !s.is_expired now && decide (s.status ≠ Status.closed)

/-- Embeds `RemoteSession.activate`: if valid, set status `'active'` and refresh
`last_activity`, returning `True`; otherwise return `False`. -/
def activate (s : RemoteSession) (now : Nat) : Bool × RemoteSession :=
  if s.is_valid now then
    (true, { s with status := Status.active, lastActivity := now })
  else
    (false, s)

/-- Embeds `RemoteSession.close`: status `'closed'`, both connected flags cleared. -/
def close (s : RemoteSession) : RemoteSession :=
  { s with status := Status.closed, userConnected := false, itConnected := false }

/-- Embeds `RemoteSession.update_activity`. -/
def update_activity (s : RemoteSession) (now : Nat) : RemoteSession :=
  { s with lastActivity := now }

end RemoteSession

/-- The state of `SessionManager`: the `session_id -> RemoteSession` map,
the `ticket_id -> session_id` map, and the fresh-id counter standing for
the `uuid4`/`token_urlsafe` generators. -/
structure SessionManager where
  sessions : List (Nat × RemoteSession)
  ticketSessions : List (Nat × Nat)
  nextId : Nat
deriving DecidableEq, Repr

/-- A freshly constructed `RemoteSession(ticket_id, user_name, it_staff_name)`
at time `now`, with identifier and tokens drawn from the counter. -/
def mkSession (now fresh tid : Nat) (uname iname : String) : RemoteSession :=
  { sessionId := fresh
    ticketId := tid
    userName := uname
    itStaffName := iname
    createdAt := now
    expiresAt := now + sessionTTL
    status := Status.pending
    userToken := 2 * fresh
    itToken := 2 * fresh + 1
    userConnected := false
    itConnected := false
    lastActivity := now }

namespace SessionManager

/-- The freshly initialized manager: both maps empty. -/
def init : SessionManager := { sessions := [], ticketSessions := [], nextId := 0 }

/-- Embeds `SessionManager.get_session`: the stored session, only if present and
valid; otherwise `None`. -/
def get_session (st : SessionManager) (now sid : Nat) : Option RemoteSession :=
  match alookup sid st.sessions with
  | some s => if s.is_valid now then some s else none
  | none => none

/-- Embeds `SessionManager.close_session`: if the id is present, close the session
in place and delete its ticket's entry from `ticket_sessions` (if any),
returning `True`; otherwise return `False`. -/
def close_session (st : SessionManager) (sid : Nat) : Bool × SessionManager :=
  match alookup sid st.sessions with
  | some s =>
      (true,
        { st with
          sessions := ainsert sid s.close st.sessions
          ticketSessions := aerase s.ticketId st.ticketSessions })
  | none => (false, st)

/-- Embeds `SessionManager.create_session`: close any existing session recorded for
this ticket, then insert a fresh pending session into both maps. -/
def create_session (st : SessionManager) (now tid : Nat) (uname iname : String) :
    RemoteSession × SessionManager :=
  let st₁ :=
    match alookup tid st.ticketSessions with
    | some oldId => (st.close_session oldId).2
    | none => st
  let s := mkSession now st₁.nextId tid uname iname
  (s,
    { st₁ with
      sessions := ainsert s.sessionId s st₁.sessions
      ticketSessions := ainsert tid s.sessionId st₁.ticketSessions
      nextId := st₁.nextId + 1 })

/-- Embeds `SessionManager.authenticate_user`: on a valid session whose `user_token`
matches, set `user_connected` and refresh activity, returning `True`. -/
def authenticate_user (st : SessionManager) (now sid tok : Nat) :
    Bool × SessionManager :=
  match st.get_session now sid with
  | some s =>
      if s.userToken = tok then
        (true,
          { st with
            sessions :=
              ainsert sid (({ s with userConnected := true }).update_activity now)
                st.sessions })
      else (false, st)
  | none => (false, st)

/-- Embeds `SessionManager.authenticate_it_staff`: on a valid session whose
`it_token` matches, set `it_connected` and refresh activity. -/
def authenticate_it_staff (st : SessionManager) (now sid tok : Nat) :
    Bool × SessionManager :=
  match st.get_session now sid with
  | some s =>
      if s.itToken = tok then
        (true,
          { st with
            sessions :=
              ainsert sid (({ s with itConnected := true }).update_activity now)
                st.sessions })
      else (false, st)
  | none => (false, st)

/-- Embeds `SessionManager.activate_session`: on a valid session with both parties
connected, run `RemoteSession.activate` and return `True`. -/
def activate_session (st : SessionManager) (now sid : Nat) :
    Bool × SessionManager :=
  match st.get_session now sid with
  | some s =>
      if s.userConnected && s.itConnected then
        (true, { st with sessions := ainsert sid (s.activate now).2 st.sessions })
      else (false, st)
  | none => (false, st)

/-- Embeds `SessionManager.disconnect_user`: clear the user flag; demote an
`'active'` session to `'pending'`. -/
def disconnect_user (st : SessionManager) (now sid : Nat) : SessionManager :=
  match st.get_session now sid with
  | some s =>
      { st with
        sessions :=
          ainsert sid
            { s with
              userConnected := false
              status := if s.status = Status.active then Status.pending else s.status }
            st.sessions }
  | none => st

/-- Embeds `SessionManager.disconnect_it_staff`: clear the staff flag; demote an
`'active'` session to `'pending'`. -/
def disconnect_it_staff (st : SessionManager) (now sid : Nat) : SessionManager :=
  match st.get_session now sid with
  | some s =>
      { st with
        sessions :=
          ainsert sid
            { s with
              itConnected := false
              status := if s.status = Status.active then Status.pending else s.status }
            st.sessions }
  | none => st

/-- Embeds `SessionManager.update_session_activity`. -/
def update_session_activity (st : SessionManager) (now sid : Nat) : SessionManager :=
  match st.get_session now sid with
  | some s =>
      { st with sessions := ainsert sid (s.update_activity now) st.sessions }
  | none => st

/-- One iteration of the deletion loop of `cleanup_expired_sessions`:
`close_session(session_id)` followed by `del self.sessions[session_id]`. -/
def sweepStep (st : SessionManager) (sid : Nat) : SessionManager :=
  { (st.close_session sid).2 with
    sessions := aerase sid (st.close_session sid).2.sessions }

/-- Embeds `SessionManager.cleanup_expired_sessions`: collect the ids of expired
sessions, then close and delete each. -/
def cleanup_expired_sessions (st : SessionManager) (now : Nat) : SessionManager :=
  let expired := (st.sessions.filter (fun p => p.2.is_expired now)).map (fun p => p.1)
  expired.foldl sweepStep st

end SessionManager

/-- The registry operations a caller can invoke, for trace-based claims. -/
inductive Op
  | createOp (tid : Nat) (uname iname : String)
  | authUserOp (sid tok : Nat)
  | authItOp (sid tok : Nat)
  | activateOp (sid : Nat)
  | disconnectUserOp (sid : Nat)
  | disconnectItOp (sid : Nat)
  | closeOp (sid : Nat)
  | recordActivityOp (sid : Nat)
  | sweepOp
deriving DecidableEq, Repr

/-- Apply one registry operation at time `now`, discarding returned values. -/
def applyOp (now : Nat) (op : Op) (st : SessionManager) : SessionManager :=
  match op with
  | Op.createOp tid uname iname => (st.create_session now tid uname iname).2
  | Op.authUserOp sid tok => (st.authenticate_user now sid tok).2
  | Op.authItOp sid tok => (st.authenticate_it_staff now sid tok).2
  | Op.activateOp sid => (st.activate_session now sid).2
  | Op.disconnectUserOp sid => st.disconnect_user now sid
  | Op.disconnectItOp sid => st.disconnect_it_staff now sid
  | Op.closeOp sid => st.close_session sid |>.2
  | Op.recordActivityOp sid => st.update_session_activity now sid
  | Op.sweepOp => st.cleanup_expired_sessions now

/-- Apply a timed trace of registry operations from a starting state. -/
def applyTrace (st : SessionManager) (tr : List (Nat × Op)) : SessionManager :=
  tr.foldl (fun acc p => applyOp p.1 p.2 acc) st

/-- The pair-consistency invariant of the two registry maps: every stored
session that is live (not closed, not expired) has its ticket mapped back
to its own id in `ticket_sessions`. -/
def mapsConsistent (st : SessionManager) (now : Nat) : Bool :=
  st.sessions.all fun p =>
    !(p.2.is_valid now) || (alookup p.2.ticketId st.ticketSessions == some p.1)

/-!  Input handler (`input_handler.py`).  Incoming coordinates are
rationals (exact arithmetic standing for the source's real-number
division); `pyInt` is Python's `int()` on such a value, truncation
toward zero.  Dispatched machine-level actions (the `pyautogui` calls)
are recorded in an append-only log, so that "dispatches nothing" is the
log staying unchanged. -/

/-- Python `int()` applied to an exact rational: truncation toward zero. -/
def pyInt (q : ℚ) : ℤ :=
  if q < 0 then ⌈q⌉ else ⌊q⌋

/-- A machine-level input action handed to the OS layer. -/
inductive InputAction
  | moveTo (x y : ℤ)
  | click (x y : ℤ) (button clickType : String)
  | scroll (delta : ℤ) (x y : ℤ)
  | press (key action : String)
  | hotkey (keys : List String)
  | write (text : String)
deriving DecidableEq, Repr

/-- The state of `InputHandler`: the local screen size, the set of
authorized session ids, and the log of dispatched actions. -/
structure InputHandler where
  screenWidth : ℤ
  screenHeight : ℤ
  authorizedSessions : List Nat
  dispatched : List InputAction
deriving DecidableEq, Repr

namespace InputHandler

/-- Embeds `InputHandler.authorize_session`: set insertion. -/
def authorize_session (h : InputHandler) (sid : Nat) : InputHandler :=
  if sid ∈ h.authorizedSessions then h
  else { h with authorizedSessions := sid :: h.authorizedSessions }

/-- Embeds `InputHandler.revoke_session`: set removal (`discard`). -/
def revoke_session (h : InputHandler) (sid : Nat) : InputHandler :=
  { h with authorizedSessions := h.authorizedSessions.filter (fun x => x ≠ sid) }

/-- Embeds `InputHandler.is_authorized`. -/
def is_authorized (h : InputHandler) (sid : Nat) : Bool :=
  decide (sid ∈ h.authorizedSessions)

/-- Append one dispatched action to the log. -/
def dispatch (h : InputHandler) (a : InputAction) : InputHandler :=
  { h with dispatched := h.dispatched ++ [a] }

/-- Embeds `InputHandler.handle_mouse_move`: authorization check, linear scaling
to the local screen size via `int(...)`, clamping to the screen bounds,
then `pyautogui.moveTo`. -/
def handle_mouse_move (h : InputHandler) (sid : Nat) (x y screenW screenH : ℚ) :
    Bool × InputHandler :=
  if h.is_authorized sid then
    let ax := pyInt (x / screenW * (h.screenWidth : ℚ))
    let ay := pyInt (y / screenH * (h.screenHeight : ℚ))
    let cx := max 0 (min ax (h.screenWidth - 1))
    let cy := max 0 (min ay (h.screenHeight - 1))
    (true, h.dispatch (InputAction.moveTo cx cy))
  else (false, h)

/-- Embeds `InputHandler.handle_mouse_click`: same scaling and clamping, then the
requested click variant. -/
def handle_mouse_click (h : InputHandler) (sid : Nat) (x y screenW screenH : ℚ)
    (button clickType : String) : Bool × InputHandler :=
  if h.is_authorized sid then
    let ax := pyInt (x / screenW * (h.screenWidth : ℚ))
    let ay := pyInt (y / screenH * (h.screenHeight : ℚ))
    let cx := max 0 (min ax (h.screenWidth - 1))
    let cy := max 0 (min ay (h.screenHeight - 1))
    (true, h.dispatch (InputAction.click cx cy button clickType))
  else (false, h)

/-- Embeds `InputHandler.handle_mouse_scroll`: same scaling, no clamping, then
`pyautogui.scroll(int(delta), actual_x, actual_y)`. -/
def handle_mouse_scroll (h : InputHandler) (sid : Nat) (x y screenW screenH delta : ℚ) :
    Bool × InputHandler :=
  if h.is_authorized sid then
    let ax := pyInt (x / screenW * (h.screenWidth : ℚ))
    let ay := pyInt (y / screenH * (h.screenHeight : ℚ))
    (true, h.dispatch (InputAction.scroll (pyInt delta) ax ay))
  else (false, h)

/-- The fixed symbolic-key lookup table of `handle_key_press`. -/
def keyMapping : List (String × String) :=
  [("Enter", "enter"), ("Backspace", "backspace"), ("Delete", "delete"),
   ("Tab", "tab"), ("Escape", "esc"), ("Space", "space"),
   ("ArrowUp", "up"), ("ArrowDown", "down"), ("ArrowLeft", "left"),
   ("ArrowRight", "right"), ("Home", "home"), ("End", "end"),
   ("PageUp", "pageup"), ("PageDown", "pagedown"), ("Insert", "insert"),
   ("F1", "f1"), ("F2", "f2"), ("F3", "f3"), ("F4", "f4"),
   ("F5", "f5"), ("F6", "f6"), ("F7", "f7"), ("F8", "f8"),
   ("F9", "f9"), ("F10", "f10"), ("F11", "f11"), ("F12", "f12")]

/-- Embeds the lookup `key_mapping.get(key, key.lower())`. -/
def mapKey (key : String) : String :=
  match keyMapping.find? (fun p => p.1 = key) with
  | some p => p.2
  | none => key.toLower

/-- Embeds `InputHandler.handle_key_press`. -/
def handle_key_press (h : InputHandler) (sid : Nat) (key action : String) :
    Bool × InputHandler :=
  if h.is_authorized sid then
    (true, h.dispatch (InputAction.press (mapKey key) action))
  else (false, h)

/-- Modifier-name normalization of `handle_key_combination`. -/
def convertKey (k : String) : String :=
  if k.toLower = "ctrl" then "ctrl"
  else if k.toLower = "alt" then "alt"
  else if k.toLower = "shift" then "shift"
  else if k.toLower = "win" ∨ k.toLower = "cmd" then "win"
  else k.toLower

/-- Embeds `InputHandler.handle_key_combination`. -/
def handle_key_combination (h : InputHandler) (sid : Nat) (keys : List String) :
    Bool × InputHandler :=
  if h.is_authorized sid then
    (true, h.dispatch (InputAction.hotkey (keys.map convertKey)))
  else (false, h)

/-- Embeds `InputHandler.handle_text_input`. -/
def handle_text_input (h : InputHandler) (sid : Nat) (text : String) :
    Bool × InputHandler :=
  if h.is_authorized sid then
    (true, h.dispatch (InputAction.write text))
  else (false, h)

end InputHandler

/-!  Screen capture (`screen_capture.py`).  A capture-and-encode cycle's
outcome is abstracted as `Option Frame`: `some f` when the capture and
encode succeeded with frame `f`, `none` when the cycle raised (the
source's `except` branch, which only logs). -/

/-- A stored frame: encoded image, dimensions, capture timestamp. -/
structure Frame where
  image : String
  width : ℤ
  height : ℤ
  timestamp : Nat
deriving DecidableEq, Repr

/-- The state of `ScreenCapture`. -/
structure ScreenCapture where
  quality : Nat
  fps : Nat
  running : Bool
  frameData : Option Frame
  clients : List Nat
deriving DecidableEq, Repr

namespace ScreenCapture

/-- A freshly constructed `ScreenCapture()`: not running, no frame, no
clients. -/
def init : ScreenCapture :=
  { quality := 70, fps := 15, running := false, frameData := none, clients := [] }

/-- Embeds `ScreenCapture.start_capture`: a no-op when already running, otherwise
sets `running`. -/
def start_capture (s : ScreenCapture) : ScreenCapture :=
  if s.running then s else { s with running := true }

/-- Embeds `ScreenCapture.stop_capture`. -/
def stop_capture (s : ScreenCapture) : ScreenCapture :=
  { s with running := false }

/-- Embeds `ScreenCapture.get_frame`: the latest frame, or `None`. -/
def get_frame (s : ScreenCapture) : Option Frame :=
  s.frameData

/-- Embeds the `self.clients.add(client_id)` set insertion on the reader set. -/
def addReaderList (c : Nat) (l : List Nat) : List Nat :=
  if c ∈ l then l else c :: l

/-- Embeds the `self.clients.discard(client_id)` set removal on the reader set. -/
def removeReaderList (c : Nat) (l : List Nat) : List Nat :=
  l.filter (fun x => x ≠ c)

/-- Embeds `ScreenCapture.add_client`: register the client, and start the capture
loop when it is not running. -/
def add_client (s : ScreenCapture) (c : Nat) : ScreenCapture :=
  let s₁ := { s with clients := addReaderList c s.clients }
  if s₁.running then s₁ else s₁.start_capture

/-- Embeds `ScreenCapture.remove_client`: deregister the client, and stop the
capture loop when no clients remain (`if not self.clients and
self.running`). -/
def remove_client (s : ScreenCapture) (c : Nat) : ScreenCapture :=
  let s₁ := { s with clients := removeReaderList c s.clients }
  if s₁.clients = [] ∧ s₁.running = true then s₁.stop_capture else s₁

/-- One iteration of `_capture_loop`: runs only while `running`; a
successful cycle overwrites the stored frame, a failed cycle (the
`except` branch) leaves the state untouched. -/
def captureCycle (s : ScreenCapture) (result : Option Frame) : ScreenCapture :=
  if s.running then
    match result with
    | some f => { s with frameData := some f }
    | none => s
  else s

/-- The capture loop over a list of cycle outcomes. -/
def runLoop (s : ScreenCapture) (results : List (Option Frame)) : ScreenCapture :=
  results.foldl captureCycle s

/-- A reader registration event at the `add_client`/`remove_client`
interface. -/
inductive CEvent
  | addReader (c : Nat)
  | removeReader (c : Nat)
deriving DecidableEq, Repr

/-- Apply one reader event. -/
def applyCEvent (s : ScreenCapture) : CEvent → ScreenCapture
  | CEvent.addReader c => s.add_client c
  | CEvent.removeReader c => s.remove_client c

/-- Apply a sequence of reader events. -/
def runEvents (s : ScreenCapture) (evs : List CEvent) : ScreenCapture :=
  evs.foldl applyCEvent s

end ScreenCapture

/-!  Specification-side definitions, for comparison with the embedded
code, and concrete states used to instantiate the theorems. -/

/-- The coordinate remap exactly as the specification words it:
`actual = round(value / sourceDim * localDim)`, then clamped to
`[0, localDim - 1]`. -/
def specRemapRound (v srcDim : ℚ) (localDim : ℤ) : ℤ :=
  max 0 (min (round (v / srcDim * (localDim : ℚ))) (localDim - 1))

/-- The remap as the code computes it: Python `int()` truncation toward
zero instead of rounding, then the same clamp. -/
def specRemapTrunc (v srcDim : ℚ) (localDim : ℤ) : ℤ :=
  max 0 (min (pyInt (v / srcDim * (localDim : ℚ))) (localDim - 1))

/-- No operation creates an `'active'` session that was not already
`'active'`: every id mapped to an active session in `st₂` was mapped to
an active session in `st`. -/
def noNewActive (st st₂ : SessionManager) : Prop :=
  ∀ sid s₂, alookup sid st₂.sessions = some s₂ → s₂.status = Status.active →
    ∃ s, alookup sid st.sessions = some s ∧ s.status = Status.active

/-- The session minted by the first `create_session` on a fresh manager:
id 0, `userToken` 0, `itToken` 1, ticket 5. -/
def demoSession : RemoteSession :=
  (SessionManager.init.create_session 0 5 "a" "b").1

/-- The manager holding exactly `demoSession`. -/
def demoSt : SessionManager :=
  (SessionManager.init.create_session 0 5 "a" "b").2

/-- State `demoSt` after `close_session(0)`: session 0 is present but closed. -/
def demoStClosed : SessionManager :=
  (demoSt.close_session 0).2

/-- State `demoSt` after both parties authenticated with their tokens. -/
def demoStBoth : SessionManager :=
  ((demoSt.authenticate_user 0 0 0).2.authenticate_it_staff 0 0 1).2

/-- Session 0 of `demoStBoth` after a successful activation. -/
def demoActivated : RemoteSession :=
  { demoSession with
    userConnected := true, itConnected := true,
    status := Status.active, lastActivity := 0 }

/-- The trace breaking pair-consistency of the registry maps: create a
session for ticket 5 (id 0), create a second session for ticket 5
(id 1, which closes id 0), then call `close_session` on the stale id 0
again. -/
def c5State : SessionManager :=
  applyTrace SessionManager.init
    [(0, Op.createOp 5 "a" "b"), (0, Op.createOp 5 "c" "d"), (0, Op.closeOp 0)]

/-- Two consecutive `create_session` calls for the same ticket. -/
def c6State : SessionManager :=
  (demoSt.create_session 0 5 "c" "d").2

/-- An input handler on a 2x2 screen with connection 7 authorized. -/
def demoInput : InputHandler :=
  { screenWidth := 2, screenHeight := 2, authorizedSessions := [7], dispatched := [] }

/-- An input handler on an 800x600 screen with connection 7 authorized. -/
def demoInput800 : InputHandler :=
  { screenWidth := 800, screenHeight := 600, authorizedSessions := [7], dispatched := [] }

/-!  Association-list lemmas. -/

theorem alookup_ainsert_self {α : Type} (k : Nat) (v : α) (l : List (Nat × α)) :
    alookup k (ainsert k v l) = some v := by
  induction l with
  | nil => simp [ainsert, alookup]
  | cons p t ih =>
      by_cases hk : p.1 = k
      · simp [ainsert, hk, alookup]
      · simp [ainsert, hk, alookup, ih]

theorem alookup_ainsert_ne {α : Type} (j k : Nat) (v : α) (l : List (Nat × α))
    (h : j ≠ k) : alookup k (ainsert j v l) = alookup k l := by
  induction l with
  | nil => simp [ainsert, alookup, h]
  | cons p t ih =>
      by_cases hj : p.1 = j
      · simp [ainsert, hj, alookup, h, ih]
      · by_cases hk : p.1 = k
        · simp [ainsert, hj, alookup, hk, Ne.symm h]
        · simp [ainsert, hj, alookup, hk, ih]

theorem alookup_aerase_self {α : Type} (k : Nat) (l : List (Nat × α)) :
    alookup k (aerase k l) = none := by
  induction l with
  | nil => simp [aerase, alookup]
  | cons p t ih =>
      by_cases hk : p.1 = k
      · simp [aerase, hk, ih]
      · simp [aerase, hk, alookup, ih]

theorem alookup_aerase_ne {α : Type} (j k : Nat) (l : List (Nat × α))
    (h : j ≠ k) : alookup k (aerase j l) = alookup k l := by
  induction l with
  | nil => simp [aerase, alookup]
  | cons p t ih =>
      by_cases hj : p.1 = j
      · simp [aerase, hj, alookup, h, ih]
      · by_cases hk : p.1 = k
        · simp [aerase, hj, alookup, hk, Ne.symm h]
        · simp [aerase, hj, alookup, hk, ih]

/-- Unpacking a successful `get_session`. -/
theorem get_session_some (st : SessionManager) (now sid : Nat) (s : RemoteSession)
    (h : st.get_session now sid = some s) :
    alookup sid st.sessions = some s ∧ s.is_valid now = true := by
  unfold SessionManager.get_session at h
  split at h
  next s₂ hl =>
    split at h
    next hv => cases h; exact ⟨hl, hv⟩
    next hv => cases h
  next hl => cases h

/-- C1: on a stored session whose status is `'closed'` or whose expiry
has passed, `get_session` returns `None`, both authentications return
`False` leaving the whole registry state unchanged, and
`update_session_activity` leaves the state (hence `last_activity`)
unchanged. -/
theorem claim_C1 (st : SessionManager) (now sid tok : Nat) (s : RemoteSession)
    (hs : alookup sid st.sessions = some s)
    (hdead : s.status = Status.closed ∨ s.expiresAt < now) :
    st.get_session now sid = none
    ∧ st.authenticate_user now sid tok = (false, st)
    ∧ st.authenticate_it_staff now sid tok = (false, st)
    ∧ st.update_session_activity now sid = st := by
  have hvalid : s.is_valid now = false := by
    rcases hdead with h | h
    · simp [RemoteSession.is_valid, h]
    · simp [RemoteSession.is_valid, RemoteSession.is_expired, h]
  have hget : st.get_session now sid = none := by
    simp [SessionManager.get_session, hs, hvalid]
  refine ⟨hget, ?_, ?_, ?_⟩ <;>
    simp [SessionManager.authenticate_user, SessionManager.authenticate_it_staff,
      SessionManager.update_session_activity, hget]

/-- Witness for C1 at the concrete closed session of `demoStClosed`. -/
theorem claim_C1_witness :
    demoStClosed.get_session 0 0 = none
    ∧ demoStClosed.authenticate_user 0 0 0 = (false, demoStClosed)
    ∧ demoStClosed.authenticate_it_staff 0 0 0 = (false, demoStClosed)
    ∧ demoStClosed.update_session_activity 0 0 = demoStClosed :=
  claim_C1 demoStClosed 0 0 0 demoSession.close (by rfl) (Or.inl (by rfl))

/-- C7: each authentication returns `True` exactly when the session is
live (`get_session` finds it) and the presented token equals the stored
token of that role; on success the role's connected flag is set and
`last_activity` is refreshed, the other map untouched; on failure the
whole registry state is unchanged. -/
theorem claim_C7 (st : SessionManager) (now sid tok : Nat) :
    ((st.authenticate_user now sid tok).1 = true ↔
      ∃ s, st.get_session now sid = some s ∧ s.userToken = tok)
    ∧ (∀ s, st.get_session now sid = some s → s.userToken = tok →
        (st.authenticate_user now sid tok).1 = true
        ∧ alookup sid (st.authenticate_user now sid tok).2.sessions =
            some { s with userConnected := true, lastActivity := now }
        ∧ (st.authenticate_user now sid tok).2.ticketSessions = st.ticketSessions)
    ∧ ((st.authenticate_user now sid tok).1 = false →
        (st.authenticate_user now sid tok).2 = st)
    ∧ ((st.authenticate_it_staff now sid tok).1 = true ↔
      ∃ s, st.get_session now sid = some s ∧ s.itToken = tok)
    ∧ (∀ s, st.get_session now sid = some s → s.itToken = tok →
        (st.authenticate_it_staff now sid tok).1 = true
        ∧ alookup sid (st.authenticate_it_staff now sid tok).2.sessions =
            some { s with itConnected := true, lastActivity := now }
        ∧ (st.authenticate_it_staff now sid tok).2.ticketSessions = st.ticketSessions)
    ∧ ((st.authenticate_it_staff now sid tok).1 = false →
        (st.authenticate_it_staff now sid tok).2 = st) := by
  cases hget : st.get_session now sid with
  | none =>
      refine ⟨?_, ?_, ?_, ?_, ?_, ?_⟩ <;>
        simp [SessionManager.authenticate_user, SessionManager.authenticate_it_staff,
          hget, RemoteSession.update_activity]
  | some s =>
      refine ⟨?_, ?_, ?_, ?_, ?_, ?_⟩
      · by_cases htok : s.userToken = tok <;>
          simp [SessionManager.authenticate_user, hget, htok]
      · intro s₂ hs₂ htok
        cases hs₂
        simp [SessionManager.authenticate_user, hget, htok,
          RemoteSession.update_activity, alookup_ainsert_self]
      · by_cases htok : s.userToken = tok <;>
          simp [SessionManager.authenticate_user, hget, htok]
      · by_cases htok : s.itToken = tok <;>
          simp [SessionManager.authenticate_it_staff, hget, htok]
      · intro s₂ hs₂ htok
        cases hs₂
        simp [SessionManager.authenticate_it_staff, hget, htok,
          RemoteSession.update_activity, alookup_ainsert_self]
      · by_cases htok : s.itToken = tok <;>
          simp [SessionManager.authenticate_it_staff, hget, htok]

/-- Witness for C7: the user authenticates on `demoSt` with the stored
token 0, setting the flag and refreshing activity. -/
theorem claim_C7_witness :
    (demoSt.authenticate_user 0 0 0).1 = true
    ∧ alookup 0 (demoSt.authenticate_user 0 0 0).2.sessions =
        some { demoSession with userConnected := true, lastActivity := 0 }
    ∧ (demoSt.authenticate_user 0 0 0).2.ticketSessions = demoSt.ticketSessions :=
  (claim_C7 demoSt 0 0 0).2.1 demoSession (by rfl) (by rfl)

/-!  `noNewActive` machinery for the activation claim. -/

theorem noNewActive_refl (st : SessionManager) : noNewActive st st :=
  fun _ s₂ h ha => ⟨s₂, h, ha⟩

theorem noNewActive_trans {a b c : SessionManager}
    (h₁ : noNewActive a b) (h₂ : noNewActive b c) : noNewActive a c := by
  intro sid s₂ h ha
  obtain ⟨s₃, hb, hb₂⟩ := h₂ sid s₂ h ha
  exact h₁ sid s₃ hb hb₂

theorem noNewActive_close (st : SessionManager) (j : Nat) :
    noNewActive st (st.close_session j).2 := by
  intro sid s₂ h ha
  unfold SessionManager.close_session at h
  split at h
  next s hl =>
    dsimp only at h
    by_cases hj : j = sid
    · subst hj
      rw [alookup_ainsert_self] at h
      cases h
      simp [RemoteSession.close] at ha
    · rw [alookup_ainsert_ne _ _ _ _ hj] at h
      exact ⟨s₂, h, ha⟩
  next hl =>
    exact ⟨s₂, h, ha⟩

theorem noNewActive_sweepStep (st : SessionManager) (j : Nat) :
    noNewActive st (SessionManager.sweepStep st j) := by
  intro sid s₂ h ha
  unfold SessionManager.sweepStep at h
  dsimp only at h
  by_cases hj : j = sid
  · subst hj
    rw [alookup_aerase_self] at h
    cases h
  · rw [alookup_aerase_ne _ _ _ hj] at h
    exact noNewActive_close st j sid s₂ h ha

theorem noNewActive_sweepFold (l : List Nat) :
    ∀ st : SessionManager, noNewActive st (l.foldl SessionManager.sweepStep st) := by
  induction l with
  | nil => intro st; exact noNewActive_refl st
  | cons j t ih =>
      intro st
      exact noNewActive_trans (noNewActive_sweepStep st j) (ih _)

/-- C2: `activate_session` succeeds exactly when the session is live
(`get_session` finds it) and both connected flags are set; on success
the stored session's status becomes `'active'`; and across every
registry operation, a session is `'active'` afterwards only if it
already was or the operation is exactly a successful activation of that
id. -/
theorem claim_C2 :
    (∀ (st : SessionManager) (now sid : Nat),
      (st.activate_session now sid).1 = true ↔
        ∃ s, st.get_session now sid = some s
          ∧ s.userConnected = true ∧ s.itConnected = true)
    ∧ (∀ (st : SessionManager) (now sid : Nat),
        (st.activate_session now sid).1 = true →
        ∃ s₂, alookup sid (st.activate_session now sid).2.sessions = some s₂
          ∧ s₂.status = Status.active)
    ∧ (∀ (st : SessionManager) (now : Nat) (op : Op) (sid : Nat)
        (s₂ : RemoteSession),
        alookup sid (applyOp now op st).sessions = some s₂ →
        s₂.status = Status.active →
        (∃ s, alookup sid st.sessions = some s ∧ s.status = Status.active)
        ∨ (op = Op.activateOp sid ∧ (st.activate_session now sid).1 = true)) := by
  refine ⟨?_, ?_, ?_⟩
  · intro st now sid
    cases hget : st.get_session now sid with
    | none => simp [SessionManager.activate_session, hget]
    | some s =>
        by_cases hu : s.userConnected = true
        · by_cases hi : s.itConnected = true
          · simp [SessionManager.activate_session, hget, hu, hi]
          · simp [SessionManager.activate_session, hget, hu, hi]
        · simp [SessionManager.activate_session, hget, hu]
  · intro st now sid hact
    cases hget : st.get_session now sid with
    | none => simp [SessionManager.activate_session, hget] at hact
    | some s =>
        have hv : s.is_valid now = true := (get_session_some st now sid s hget).2
        by_cases hc : (s.userConnected && s.itConnected) = true
        · refine ⟨{ s with status := Status.active, lastActivity := now }, ?_, rfl⟩
          simp [SessionManager.activate_session, hget, hc, RemoteSession.activate,
            hv, alookup_ainsert_self]
        · simp [SessionManager.activate_session, hget, hc] at hact
  · intro st now op sid s₂ h ha
    cases op with
    | createOp tid uname iname =>
        left
        cases hold : alookup tid st.ticketSessions with
        | none =>
            simp only [applyOp, SessionManager.create_session, hold] at h
            by_cases hj : st.nextId = sid
            · subst hj
              rw [show (mkSession now st.nextId tid uname iname).sessionId = st.nextId
                    from rfl, alookup_ainsert_self] at h
              cases h
              simp [mkSession] at ha
            · rw [show (mkSession now st.nextId tid uname iname).sessionId = st.nextId
                    from rfl, alookup_ainsert_ne _ _ _ _ hj] at h
              exact ⟨s₂, h, ha⟩
        | some oldId =>
            simp only [applyOp, SessionManager.create_session, hold] at h
            by_cases hj : (st.close_session oldId).2.nextId = sid
            · rw [show (mkSession now (st.close_session oldId).2.nextId tid uname
                    iname).sessionId = (st.close_session oldId).2.nextId from rfl,
                  hj, alookup_ainsert_self] at h
              cases h
              simp [mkSession] at ha
            · rw [show (mkSession now (st.close_session oldId).2.nextId tid uname
                    iname).sessionId = (st.close_session oldId).2.nextId from rfl,
                  alookup_ainsert_ne _ _ _ _ hj] at h
              exact noNewActive_close st oldId sid s₂ h ha
    | authUserOp j tok =>
        left
        cases hget : st.get_session now j with
        | none =>
            simp only [applyOp, SessionManager.authenticate_user, hget] at h
            exact ⟨s₂, h, ha⟩
        | some s =>
            by_cases htok : s.userToken = tok
            · simp only [applyOp, SessionManager.authenticate_user, hget, htok,
                if_pos] at h
              by_cases hj : j = sid
              · subst hj
                rw [alookup_ainsert_self] at h
                cases h
                exact ⟨s, (get_session_some st now j s hget).1,
                  by simpa [RemoteSession.update_activity] using ha⟩
              · rw [alookup_ainsert_ne _ _ _ _ hj] at h
                exact ⟨s₂, h, ha⟩
            · simp only [applyOp, SessionManager.authenticate_user, hget, htok,
                if_neg, not_false_iff] at h
              exact ⟨s₂, h, ha⟩
    | authItOp j tok =>
        left
        cases hget : st.get_session now j with
        | none =>
            simp only [applyOp, SessionManager.authenticate_it_staff, hget] at h
            exact ⟨s₂, h, ha⟩
        | some s =>
            by_cases htok : s.itToken = tok
            · simp only [applyOp, SessionManager.authenticate_it_staff, hget, htok,
                if_pos] at h
              by_cases hj : j = sid
              · subst hj
                rw [alookup_ainsert_self] at h
                cases h
                exact ⟨s, (get_session_some st now j s hget).1,
                  by simpa [RemoteSession.update_activity] using ha⟩
              · rw [alookup_ainsert_ne _ _ _ _ hj] at h
                exact ⟨s₂, h, ha⟩
            · simp only [applyOp, SessionManager.authenticate_it_staff, hget, htok,
                if_neg, not_false_iff] at h
              exact ⟨s₂, h, ha⟩
    | activateOp j =>
        cases hget : st.get_session now j with
        | none =>
            left
            simp only [applyOp, SessionManager.activate_session, hget] at h
            exact ⟨s₂, h, ha⟩
        | some s =>
            by_cases hc : (s.userConnected && s.itConnected) = true
            · by_cases hj : j = sid
              · subst hj
                right
                exact ⟨rfl, by simp [SessionManager.activate_session, hget, hc]⟩
              · left
                simp only [applyOp, SessionManager.activate_session, hget, hc,
                  if_pos] at h
                rw [alookup_ainsert_ne _ _ _ _ hj] at h
                exact ⟨s₂, h, ha⟩
            · left
              simp only [applyOp, SessionManager.activate_session, hget, hc,
                if_neg, not_false_iff] at h
              exact ⟨s₂, h, ha⟩
    | disconnectUserOp j =>
        left
        cases hget : st.get_session now j with
        | none =>
            simp only [applyOp, SessionManager.disconnect_user, hget] at h
            exact ⟨s₂, h, ha⟩
        | some s =>
            simp only [applyOp, SessionManager.disconnect_user, hget] at h
            by_cases hj : j = sid
            · subst hj
              rw [alookup_ainsert_self] at h
              cases h
              by_cases hs : s.status = Status.active
              · simp [hs] at ha
              · simp only [if_neg hs] at ha
                exact absurd ha hs
            · rw [alookup_ainsert_ne _ _ _ _ hj] at h
              exact ⟨s₂, h, ha⟩
    | disconnectItOp j =>
        left
        cases hget : st.get_session now j with
        | none =>
            simp only [applyOp, SessionManager.disconnect_it_staff, hget] at h
            exact ⟨s₂, h, ha⟩
        | some s =>
            simp only [applyOp, SessionManager.disconnect_it_staff, hget] at h
            by_cases hj : j = sid
            · subst hj
              rw [alookup_ainsert_self] at h
              cases h
              by_cases hs : s.status = Status.active
              · simp [hs] at ha
              · simp only [if_neg hs] at ha
                exact absurd ha hs
            · rw [alookup_ainsert_ne _ _ _ _ hj] at h
              exact ⟨s₂, h, ha⟩
    | closeOp j =>
        left
        exact noNewActive_close st j sid s₂ (by simpa [applyOp] using h) ha
    | recordActivityOp j =>
        left
        cases hget : st.get_session now j with
        | none =>
            simp only [applyOp, SessionManager.update_session_activity, hget] at h
            exact ⟨s₂, h, ha⟩
        | some s =>
            simp only [applyOp, SessionManager.update_session_activity, hget] at h
            by_cases hj : j = sid
            · subst hj
              rw [alookup_ainsert_self] at h
              cases h
              exact ⟨s, (get_session_some st now j s hget).1,
                by simpa [RemoteSession.update_activity] using ha⟩
            · rw [alookup_ainsert_ne _ _ _ _ hj] at h
              exact ⟨s₂, h, ha⟩
    | sweepOp =>
        left
        simp only [applyOp, SessionManager.cleanup_expired_sessions] at h
        exact noNewActive_sweepFold _ st sid s₂ h ha

/-- Witness for C2: on `demoStBoth` (both parties authenticated),
activation of session 0 succeeds, stores an active session, and the
step-analysis conclusion holds for that very operation. -/
theorem claim_C2_witness :
    ((demoStBoth.activate_session 0 0).1 = true ↔
      ∃ s, demoStBoth.get_session 0 0 = some s
        ∧ s.userConnected = true ∧ s.itConnected = true)
    ∧ (∃ s₂, alookup 0 (demoStBoth.activate_session 0 0).2.sessions = some s₂
        ∧ s₂.status = Status.active)
    ∧ ((∃ s, alookup 0 demoStBoth.sessions = some s ∧ s.status = Status.active)
        ∨ (Op.activateOp 0 = Op.activateOp 0
            ∧ (demoStBoth.activate_session 0 0).1 = true)) :=
  ⟨claim_C2.1 demoStBoth 0 0,
   claim_C2.2.1 demoStBoth 0 0 (by decide),
   claim_C2.2.2 demoStBoth 0 (Op.activateOp 0) 0 demoActivated (by decide) (by decide)⟩

/-- The operation `close_session` never changes the fresh-id counter. -/
theorem close_session_nextId (st : SessionManager) (j : Nat) :
    (st.close_session j).2.nextId = st.nextId := by
  unfold SessionManager.close_session
  split <;> rfl

/-- C5: the pair-consistency invariant fails on the code.  The trace
`createOp 5` (id 0), `createOp 5` (id 1, closing id 0), `closeOp 0`
(on the stale id) reaches a state in which session 1 is stored and live
but its ticket 5 has no entry in `ticket_sessions`: the second
`close_session(0)` deleted ticket 5's entry even though it pointed at
session 1. -/
theorem claim_C5_bug :
    mapsConsistent c5State 0 = false
    ∧ (alookup 1 c5State.sessions).map (fun s => s.is_valid 0) = some true
    ∧ alookup 5 c5State.ticketSessions = none :=
  ⟨by decide, by decide, by decide⟩

/-- C6 counterexample: after `create_session` for ticket 5 finds the old
session (id 0) and "clears" it, the id → session map still holds an
entry for id 0 (the closed old session); only the ticket map entry was
removed, so the claim that both maps' entries are cleared is false. -/
theorem claim_C6_cex :
    alookup 0 c6State.sessions = some demoSession.close
    ∧ alookup 0 c6State.sessions ≠ none := by
  have h : alookup 0 c6State.sessions = some demoSession.close := by rfl
  exact ⟨h, by rw [h]; exact fun hc => Option.noConfusion hc⟩

/-- C6 amended: when `ticket_sessions` maps the work item to a prior
session id, `create_session` closes that session (its map entry now
holds the closed record — it is not removed; the sweep prunes it later),
replaces the work-item entry with the fresh id, and the old id is
not-found through `get_session` immediately after. -/
theorem claim_C6_amended (st : SessionManager) (now tid oldId : Nat)
    (uname iname : String)
    (hold : alookup tid st.ticketSessions = some oldId)
    (hfresh : oldId ≠ st.nextId) :
    (st.create_session now tid uname iname).2.get_session now oldId = none
    ∧ (∀ s, alookup oldId st.sessions = some s →
        alookup oldId (st.create_session now tid uname iname).2.sessions =
          some s.close)
    ∧ alookup tid (st.create_session now tid uname iname).2.ticketSessions =
        some st.nextId := by
  have hnext := close_session_nextId st oldId
  have hsess : (st.create_session now tid uname iname).2.sessions =
      ainsert (st.close_session oldId).2.nextId
        (mkSession now (st.close_session oldId).2.nextId tid uname iname)
        (st.close_session oldId).2.sessions := by
    simp only [SessionManager.create_session, hold, mkSession]
  have htick : (st.create_session now tid uname iname).2.ticketSessions =
      ainsert tid (st.close_session oldId).2.nextId
        (st.close_session oldId).2.ticketSessions := by
    simp only [SessionManager.create_session, hold, mkSession]
  have hne : (st.close_session oldId).2.nextId ≠ oldId := by
    rw [hnext]
    exact fun hh => hfresh hh.symm
  have hlook : alookup oldId (st.create_session now tid uname iname).2.sessions =
      alookup oldId (st.close_session oldId).2.sessions := by
    rw [hsess, alookup_ainsert_ne _ _ _ _ hne]
  refine ⟨?_, ?_, ?_⟩
  · cases hs : alookup oldId st.sessions with
    | some s =>
        have hcl : alookup oldId (st.close_session oldId).2.sessions =
            some s.close := by
          unfold SessionManager.close_session
          rw [hs]
          exact alookup_ainsert_self _ _ _
        unfold SessionManager.get_session
        rw [hlook, hcl]
        simp [RemoteSession.is_valid, RemoteSession.close]
    | none =>
        have hcl : alookup oldId (st.close_session oldId).2.sessions = none := by
          unfold SessionManager.close_session
          rw [hs]
          exact hs
        unfold SessionManager.get_session
        rw [hlook, hcl]
  · intro s hs
    have hcl : alookup oldId (st.close_session oldId).2.sessions = some s.close := by
      unfold SessionManager.close_session
      rw [hs]
      exact alookup_ainsert_self _ _ _
    rw [hlook, hcl]
  · rw [htick, hnext]
    exact alookup_ainsert_self _ _ _

/-- Witness for C6 amended, at the concrete second create on `demoSt`. -/
theorem claim_C6_witness :
    (demoSt.create_session 0 5 "c" "d").2.get_session 0 0 = none
    ∧ alookup 0 (demoSt.create_session 0 5 "c" "d").2.sessions =
        some demoSession.close
    ∧ alookup 5 (demoSt.create_session 0 5 "c" "d").2.ticketSessions =
        some demoSt.nextId :=
  ⟨(claim_C6_amended demoSt 0 5 0 "c" "d" (by rfl) (by decide)).1,
   (claim_C6_amended demoSt 0 5 0 "c" "d" (by rfl) (by decide)).2.1
     demoSession (by rfl),
   (claim_C6_amended demoSt 0 5 0 "c" "d" (by rfl) (by decide)).2.2⟩

/-- C3: every action operation returns failure with the state (hence the
dispatch log) unchanged when the connection id is not authorized; after
`authorize_session` the authorization check passes and the identical
calls succeed. -/
theorem claim_C3 (h : InputHandler) (sid : Nat) (x y sw sh delta : ℚ)
    (button clickType key action text : String) (keys : List String)
    (hna : h.is_authorized sid = false) :
    h.handle_mouse_move sid x y sw sh = (false, h)
    ∧ h.handle_mouse_click sid x y sw sh button clickType = (false, h)
    ∧ h.handle_mouse_scroll sid x y sw sh delta = (false, h)
    ∧ h.handle_key_press sid key action = (false, h)
    ∧ h.handle_key_combination sid keys = (false, h)
    ∧ h.handle_text_input sid text = (false, h)
    ∧ (h.authorize_session sid).is_authorized sid = true
    ∧ ((h.authorize_session sid).handle_mouse_move sid x y sw sh).1 = true
    ∧ ((h.authorize_session sid).handle_mouse_click sid x y sw sh button
        clickType).1 = true
    ∧ ((h.authorize_session sid).handle_mouse_scroll sid x y sw sh delta).1 = true
    ∧ ((h.authorize_session sid).handle_key_press sid key action).1 = true
    ∧ ((h.authorize_session sid).handle_key_combination sid keys).1 = true
    ∧ ((h.authorize_session sid).handle_text_input sid text).1 = true := by
  have hauth : (h.authorize_session sid).is_authorized sid = true := by
    unfold InputHandler.authorize_session InputHandler.is_authorized
    by_cases hm : sid ∈ h.authorizedSessions
    · simp [hm]
    · simp [hm]
  refine ⟨?_, ?_, ?_, ?_, ?_, ?_, hauth, ?_, ?_, ?_, ?_, ?_, ?_⟩ <;>
    simp [InputHandler.handle_mouse_move, InputHandler.handle_mouse_click,
      InputHandler.handle_mouse_scroll, InputHandler.handle_key_press,
      InputHandler.handle_key_combination, InputHandler.handle_text_input,
      hna, hauth]

/-- Witness for C3 with connection 9 unauthorized on `demoInput800`. -/
theorem claim_C3_witness :
    demoInput800.handle_mouse_move 9 1 2 800 600 = (false, demoInput800)
    ∧ demoInput800.handle_mouse_click 9 1 2 800 600 "left" "single" =
        (false, demoInput800)
    ∧ demoInput800.handle_mouse_scroll 9 1 2 800 600 3 = (false, demoInput800)
    ∧ demoInput800.handle_key_press 9 "Enter" "press" = (false, demoInput800)
    ∧ demoInput800.handle_key_combination 9 ["Ctrl", "c"] = (false, demoInput800)
    ∧ demoInput800.handle_text_input 9 "hi" = (false, demoInput800)
    ∧ (demoInput800.authorize_session 9).is_authorized 9 = true
    ∧ ((demoInput800.authorize_session 9).handle_mouse_move 9 1 2 800 600).1 = true
    ∧ ((demoInput800.authorize_session 9).handle_mouse_click 9 1 2 800 600 "left"
        "single").1 = true
    ∧ ((demoInput800.authorize_session 9).handle_mouse_scroll 9 1 2 800 600 3).1 =
        true
    ∧ ((demoInput800.authorize_session 9).handle_key_press 9 "Enter" "press").1 =
        true
    ∧ ((demoInput800.authorize_session 9).handle_key_combination 9
        ["Ctrl", "c"]).1 = true
    ∧ ((demoInput800.authorize_session 9).handle_text_input 9 "hi").1 = true :=
  claim_C3 demoInput800 9 1 2 800 600 3 "left" "single" "Enter" "press" "hi"
    ["Ctrl", "c"] (by decide)

/-- Python `int()` is the identity on integers. -/
theorem pyInt_intCast (x : ℤ) : pyInt (x : ℚ) = x := by
  unfold pyInt
  by_cases hx : (x : ℚ) < 0
  · rw [if_pos hx, Int.ceil_intCast]
  · rw [if_neg hx, Int.floor_intCast]

/-- C4 counterexample: with source viewport 3x3 on the 2x2 screen, the
authorized `pointerMove(1, 0, 3, 3)` dispatches x = int((1/3)*2) = 0,
while the spec's formula rounds (1/3)*2 = 2/3 to 1: the dispatched
coordinate is not `round(value / sourceDim * localDim)` clamped. -/
theorem claim_C4_cex :
    (demoInput.handle_mouse_move 7 1 0 3 3).2.dispatched ≠
      [InputAction.moveTo (specRemapRound 1 3 demoInput.screenWidth)
        (specRemapRound 0 3 demoInput.screenHeight)] := by
  have hx : pyInt ((1:ℚ) / 3 * ((2:ℤ):ℚ)) = 0 := by
    rw [pyInt, if_neg (by norm_num)]
    norm_num
  have hy : pyInt ((0:ℚ) / 3 * ((2:ℤ):ℚ)) = 0 := by
    rw [pyInt, if_neg (by norm_num)]
    norm_num
  have hlhs : (demoInput.handle_mouse_move 7 1 0 3 3).2.dispatched =
      [InputAction.moveTo 0 0] := by
    rw [show (demoInput.handle_mouse_move 7 1 0 3 3).2.dispatched =
        [InputAction.moveTo
          (max 0 (min (pyInt ((1:ℚ) / 3 * ((2:ℤ):ℚ))) (2 - 1)))
          (max 0 (min (pyInt ((0:ℚ) / 3 * ((2:ℤ):ℚ))) (2 - 1)))] from rfl,
      hx, hy]
    decide
  have hrx : specRemapRound 1 3 demoInput.screenWidth = 1 := by
    rw [show demoInput.screenWidth = 2 from rfl, specRemapRound,
      show ((1:ℚ) / 3 * (((2:ℤ)):ℚ)) = 2/3 by norm_num,
      show round ((2:ℚ)/3) = 1 by norm_num [round_eq]]
    decide
  rw [hlhs, hrx]
  intro hcontra
  simp at hcontra

/-- C4 amended: the dispatched coordinate in each dimension is Python
`int()` truncation (not rounding) of `value / sourceDim * localDim`,
clamped to `[0, localDim - 1]`; under identical source and local
dimensions an integer input is dispatched exactly (clamped), and
`pointerMove(-5, H+5, W, H)` dispatches at `(0, H-1)`. -/
theorem claim_C4_amended (h : InputHandler) (sid : Nat) (x y : ℤ)
    (hauth : h.is_authorized sid = true)
    (hW : 0 < h.screenWidth) (hH : 0 < h.screenHeight) :
    (∀ xq yq swq shq : ℚ,
      (h.handle_mouse_move sid xq yq swq shq).2.dispatched =
        h.dispatched ++ [InputAction.moveTo
          (specRemapTrunc xq swq h.screenWidth)
          (specRemapTrunc yq shq h.screenHeight)])
    ∧ (h.handle_mouse_move sid (x : ℚ) (y : ℚ) (h.screenWidth : ℚ)
        (h.screenHeight : ℚ)).2.dispatched =
        h.dispatched ++ [InputAction.moveTo
          (max 0 (min x (h.screenWidth - 1)))
          (max 0 (min y (h.screenHeight - 1)))]
    ∧ (h.handle_mouse_move sid (-5) ((h.screenHeight : ℚ) + 5)
        (h.screenWidth : ℚ) (h.screenHeight : ℚ)).2.dispatched =
        h.dispatched ++ [InputAction.moveTo 0 (h.screenHeight - 1)] := by
  have hWne : (h.screenWidth : ℚ) ≠ 0 := Int.cast_ne_zero.mpr (ne_of_gt hW)
  have hHne : (h.screenHeight : ℚ) ≠ 0 := Int.cast_ne_zero.mpr (ne_of_gt hH)
  refine ⟨?_, ?_, ?_⟩
  · intro xq yq swq shq
    simp [InputHandler.handle_mouse_move, hauth, InputHandler.dispatch,
      specRemapTrunc]
  · have e1 : (x : ℚ) / (h.screenWidth : ℚ) * (h.screenWidth : ℚ) = (x : ℚ) :=
      div_mul_cancel₀ _ hWne
    have e2 : (y : ℚ) / (h.screenHeight : ℚ) * (h.screenHeight : ℚ) = (y : ℚ) :=
      div_mul_cancel₀ _ hHne
    simp [InputHandler.handle_mouse_move, hauth, InputHandler.dispatch,
      e1, e2, pyInt_intCast]
  · have e3 : (-5 : ℚ) / (h.screenWidth : ℚ) * (h.screenWidth : ℚ) = (-5 : ℚ) :=
      div_mul_cancel₀ _ hWne
    have e4 : ((h.screenHeight : ℚ) + 5) / (h.screenHeight : ℚ) *
        (h.screenHeight : ℚ) = (h.screenHeight : ℚ) + 5 :=
      div_mul_cancel₀ _ hHne
    have p3 : pyInt (-5 : ℚ) = -5 := by
      rw [show (-5 : ℚ) = ((-5 : ℤ) : ℚ) by norm_num, pyInt_intCast]
    have p4 : pyInt ((h.screenHeight : ℚ) + 5) = h.screenHeight + 5 := by
      rw [show (h.screenHeight : ℚ) + 5 = ((h.screenHeight + 5 : ℤ) : ℚ) by
        push_cast; ring, pyInt_intCast]
    simp only [InputHandler.handle_mouse_move, hauth, if_true,
      InputHandler.dispatch, e3, e4, p3, p4]
    simp only [List.append_cancel_left_eq, List.cons.injEq, and_true,
      InputAction.moveTo.injEq]
    omega

/-- Witness for C4 amended on the 800x600 screen, connection 7. -/
theorem claim_C4_witness :
    (demoInput800.handle_mouse_move 7 ((10 : ℤ) : ℚ) ((20 : ℤ) : ℚ)
        (demoInput800.screenWidth : ℚ) (demoInput800.screenHeight : ℚ)).2.dispatched =
        demoInput800.dispatched ++ [InputAction.moveTo
          (max 0 (min 10 (demoInput800.screenWidth - 1)))
          (max 0 (min 20 (demoInput800.screenHeight - 1)))]
    ∧ (demoInput800.handle_mouse_move 7 (-5) ((demoInput800.screenHeight : ℚ) + 5)
        (demoInput800.screenWidth : ℚ) (demoInput800.screenHeight : ℚ)).2.dispatched =
        demoInput800.dispatched ++ [InputAction.moveTo 0
          (demoInput800.screenHeight - 1)] :=
  ⟨(claim_C4_amended demoInput800 7 10 20 (by decide) (by decide) (by decide)).2.1,
   (claim_C4_amended demoInput800 7 10 20 (by decide) (by decide) (by decide)).2.2⟩

/-- C10: an authorized scroll dispatches at the remapped coordinates
without clamping — concretely, scroll at x = 1600 with source width 800
on the 800-wide screen dispatches at x = 1600, outside
`[0, localWidth - 1]` — while move and click always dispatch within the
screen bounds. -/
theorem claim_C10 :
    (∀ (h : InputHandler) (sid : Nat) (x y sw sh delta : ℚ),
      h.is_authorized sid = true →
      (h.handle_mouse_scroll sid x y sw sh delta).2.dispatched =
        h.dispatched ++ [InputAction.scroll (pyInt delta)
          (pyInt (x / sw * (h.screenWidth : ℚ)))
          (pyInt (y / sh * (h.screenHeight : ℚ)))])
    ∧ ((demoInput800.handle_mouse_scroll 7 1600 0 800 600 1).2.dispatched =
        [InputAction.scroll 1 1600 0]
      ∧ ¬ (1600 : ℤ) ≤ demoInput800.screenWidth - 1)
    ∧ (∀ (h : InputHandler) (sid : Nat) (x y sw sh : ℚ)
        (button clickType : String),
        h.is_authorized sid = true → 0 < h.screenWidth → 0 < h.screenHeight →
        ∃ ax ay, 0 ≤ ax ∧ ax ≤ h.screenWidth - 1 ∧ 0 ≤ ay ∧
          ay ≤ h.screenHeight - 1
          ∧ (h.handle_mouse_move sid x y sw sh).2.dispatched =
              h.dispatched ++ [InputAction.moveTo ax ay]
          ∧ (h.handle_mouse_click sid x y sw sh button clickType).2.dispatched =
              h.dispatched ++ [InputAction.click ax ay button clickType]) := by
  have hs1 : (demoInput800.handle_mouse_scroll 7 1600 0 800 600 1).2.dispatched =
      [InputAction.scroll 1 1600 0] := by
    rw [show (demoInput800.handle_mouse_scroll 7 1600 0 800 600 1).2.dispatched =
        [InputAction.scroll (pyInt (1:ℚ))
          (pyInt ((1600:ℚ) / 800 * ((800:ℤ):ℚ)))
          (pyInt ((0:ℚ) / 600 * ((600:ℤ):ℚ)))] from rfl,
      show pyInt (1:ℚ) = 1 by rw [pyInt, if_neg (by norm_num)]; norm_num,
      show pyInt ((1600:ℚ) / 800 * ((800:ℤ):ℚ)) = 1600 by
        rw [pyInt, if_neg (by norm_num)]; norm_num,
      show pyInt ((0:ℚ) / 600 * ((600:ℤ):ℚ)) = 0 by
        rw [pyInt, if_neg (by norm_num)]; norm_num]
  refine ⟨?_, ⟨hs1, by decide⟩, ?_⟩
  · intro h sid x y sw sh delta hauth
    simp [InputHandler.handle_mouse_scroll, hauth, InputHandler.dispatch]
  · intro h sid x y sw sh button clickType hauth hW hH
    refine ⟨max 0 (min (pyInt (x / sw * (h.screenWidth : ℚ)))
        (h.screenWidth - 1)),
      max 0 (min (pyInt (y / sh * (h.screenHeight : ℚ))) (h.screenHeight - 1)),
      ?_, ?_, ?_, ?_, ?_, ?_⟩
    · omega
    · omega
    · omega
    · omega
    · simp [InputHandler.handle_mouse_move, hauth, InputHandler.dispatch]
    · simp [InputHandler.handle_mouse_click, hauth, InputHandler.dispatch]

/-- Witness for C10's universally quantified parts at connection 7. -/
theorem claim_C10_witness :
    ((demoInput800.handle_mouse_scroll 7 1600 0 800 600 1).2.dispatched =
      demoInput800.dispatched ++ [InputAction.scroll (pyInt 1)
        (pyInt (1600 / 800 * (demoInput800.screenWidth : ℚ)))
        (pyInt (0 / 600 * (demoInput800.screenHeight : ℚ)))])
    ∧ (∃ ax ay, 0 ≤ ax ∧ ax ≤ demoInput800.screenWidth - 1 ∧ 0 ≤ ay ∧
        ay ≤ demoInput800.screenHeight - 1
        ∧ (demoInput800.handle_mouse_move 7 1 2 800 600).2.dispatched =
            demoInput800.dispatched ++ [InputAction.moveTo ax ay]
        ∧ (demoInput800.handle_mouse_click 7 1 2 800 600 "left"
            "single").2.dispatched =
            demoInput800.dispatched ++ [InputAction.click ax ay "left" "single"]) :=
  ⟨claim_C10.1 demoInput800 7 1600 0 800 600 1 (by decide),
   claim_C10.2.2 demoInput800 7 1 2 800 600 "left" "single" (by decide)
     (by decide) (by decide)⟩

/-- A reader set with a client just added is never empty. -/
theorem addReaderList_ne_nil (c : Nat) (l : List Nat) :
    ScreenCapture.addReaderList c l ≠ [] := by
  unfold ScreenCapture.addReaderList
  split
  next hm => exact List.ne_nil_of_mem hm
  next hm => exact List.cons_ne_nil c l

/-- Removing a reader from the empty set keeps it empty. -/
theorem removeReaderList_nil (c : Nat) :
    ScreenCapture.removeReaderList c [] = [] := rfl

/-- One reader event cannot break the running-iff-subscribed invariant. -/
theorem capture_inv_step (s : ScreenCapture) (e : ScreenCapture.CEvent)
    (hinv : s.running = true ↔ s.clients ≠ []) :
    ((ScreenCapture.applyCEvent s e).running = true ↔
      (ScreenCapture.applyCEvent s e).clients ≠ []) := by
  cases e with
  | addReader c =>
      have hne := addReaderList_ne_nil c s.clients
      cases hr : s.running <;>
        simp [ScreenCapture.applyCEvent, ScreenCapture.add_client,
          ScreenCapture.start_capture, hr, hne]
  | removeReader c =>
      by_cases he : ScreenCapture.removeReaderList c s.clients = []
      · cases hr : s.running <;>
          simp [ScreenCapture.applyCEvent, ScreenCapture.remove_client,
            ScreenCapture.stop_capture, he, hr]
      · have hcl : s.clients ≠ [] := by
          intro hnil
          rw [hnil, removeReaderList_nil] at he
          exact he rfl
        have hr : s.running = true := hinv.mpr hcl
        simp [ScreenCapture.applyCEvent, ScreenCapture.remove_client,
          ScreenCapture.stop_capture, he, hr]

/-- The invariant propagates along any event sequence. -/
theorem runEvents_inv (evs : List ScreenCapture.CEvent) :
    ∀ s : ScreenCapture, (s.running = true ↔ s.clients ≠ []) →
    ((ScreenCapture.runEvents s evs).running = true ↔
      (ScreenCapture.runEvents s evs).clients ≠ []) := by
  induction evs with
  | nil => intro s hinv; exact hinv
  | cons e t ih =>
      intro s hinv
      exact ih (ScreenCapture.applyCEvent s e) (capture_inv_step s e hinv)

/-- Reader events never touch the stored frame. -/
theorem applyCEvent_frameData (s : ScreenCapture) (e : ScreenCapture.CEvent) :
    (ScreenCapture.applyCEvent s e).frameData = s.frameData := by
  cases e with
  | addReader c =>
      simp only [ScreenCapture.applyCEvent, ScreenCapture.add_client,
        ScreenCapture.start_capture]
      split <;> rfl
  | removeReader c =>
      simp only [ScreenCapture.applyCEvent, ScreenCapture.remove_client,
        ScreenCapture.stop_capture]
      split <;> rfl

/-- The stored frame along any event sequence stays what it was. -/
theorem runEvents_frameData (evs : List ScreenCapture.CEvent) :
    ∀ s : ScreenCapture,
    (ScreenCapture.runEvents s evs).frameData = s.frameData := by
  induction evs with
  | nil => intro s; rfl
  | cons e t ih =>
      intro s
      rw [ScreenCapture.runEvents, List.foldl_cons]
      rw [show List.foldl ScreenCapture.applyCEvent
            (ScreenCapture.applyCEvent s e) t =
          ScreenCapture.runEvents (ScreenCapture.applyCEvent s e) t from rfl]
      rw [ih, applyCEvent_frameData]

/-- C8: adding a reader to an idle producer starts the capture loop;
removing the last reader stops it; after any `add_client`/`remove_client`
sequence from the initial state the loop runs iff at least one reader is
registered; and `get_frame` before any capture cycle returns `None`. -/
theorem claim_C8 :
    (∀ (s : ScreenCapture) (c : Nat), s.clients = [] →
      (s.add_client c).running = true)
    ∧ (∀ (s : ScreenCapture) (c : Nat), (s.remove_client c).clients = [] →
        (s.remove_client c).running = false)
    ∧ (∀ evs : List ScreenCapture.CEvent,
        ((ScreenCapture.runEvents ScreenCapture.init evs).running = true ↔
          (ScreenCapture.runEvents ScreenCapture.init evs).clients ≠ []))
    ∧ (∀ evs : List ScreenCapture.CEvent,
        (ScreenCapture.runEvents ScreenCapture.init evs).get_frame = none) := by
  refine ⟨?_, ?_, ?_, ?_⟩
  · intro s c hempty
    cases hr : s.running <;>
      simp [ScreenCapture.add_client, ScreenCapture.start_capture, hempty, hr]
  · intro s c hempty
    by_cases he : ScreenCapture.removeReaderList c s.clients = []
    · cases hr : s.running <;>
        simp [ScreenCapture.remove_client, ScreenCapture.stop_capture, he, hr]
    · exfalso
      apply he
      have hcl : (s.remove_client c).clients =
          ScreenCapture.removeReaderList c s.clients := by
        simp [ScreenCapture.remove_client, ScreenCapture.stop_capture, he]
      rw [hcl] at hempty
      exact hempty
  · intro evs
    exact runEvents_inv evs ScreenCapture.init (by simp [ScreenCapture.init])
  · intro evs
    rw [ScreenCapture.get_frame, runEvents_frameData]
    rfl

/-- Witness for C8 at the single event `addReader 3`. -/
theorem claim_C8_witness :
    (ScreenCapture.init.add_client 3).running = true
    ∧ ((ScreenCapture.init.add_client 3).remove_client 3).running = false
    ∧ ((ScreenCapture.runEvents ScreenCapture.init
          [ScreenCapture.CEvent.addReader 3]).running = true ↔
        (ScreenCapture.runEvents ScreenCapture.init
          [ScreenCapture.CEvent.addReader 3]).clients ≠ [])
    ∧ (ScreenCapture.runEvents ScreenCapture.init
        [ScreenCapture.CEvent.addReader 3]).get_frame = none :=
  ⟨claim_C8.1 ScreenCapture.init 3 (by rfl),
   claim_C8.2.1 (ScreenCapture.init.add_client 3) 3 (by rfl),
   claim_C8.2.2.1 [ScreenCapture.CEvent.addReader 3],
   claim_C8.2.2.2 [ScreenCapture.CEvent.addReader 3]⟩

/-- C9: a failed capture or encode cycle leaves the previous frame stored
and returned, leaves the loop running, and the loop's overall effect is
as if the failed cycle were skipped. -/
theorem claim_C9 (s : ScreenCapture) (pre post : List (Option Frame)) :
    ScreenCapture.runLoop s (pre ++ none :: post) =
      ScreenCapture.runLoop s (pre ++ post)
    ∧ (ScreenCapture.captureCycle s none).frameData = s.frameData
    ∧ (ScreenCapture.captureCycle s none).get_frame = s.get_frame
    ∧ (ScreenCapture.captureCycle s none).running = s.running := by
  have hnone : ∀ t : ScreenCapture, ScreenCapture.captureCycle t none = t := by
    intro t
    unfold ScreenCapture.captureCycle
    split <;> rfl
  refine ⟨?_, by rw [hnone], by rw [hnone], by rw [hnone]⟩
  unfold ScreenCapture.runLoop
  rw [List.foldl_append, List.foldl_append, List.foldl_cons, hnone]

end SchoolIT
